import Mathlib

/-!
Verification of the account JSON store (`Uploader.py`, `acc.py`) and the
release-tag upsert helpers (`mongo_util.py`).

The Python code is shallowly embedded: the filesystem is an explicit state
(a set of directories plus an association list from path strings to stored
JSON documents), Python values are the inductive `PyVal`, exceptions are
`Except PyErr`, and the write path of `_atomic_write_json` is additionally
expressed as a script of primitive filesystem operations so that
interruption before the atomic replace can be stated as running a proper
prefix of the script.
-/

namespace NotesStore

/-- A Python value as seen by `json.dump` / `json.load`.  Finite floats are
represented by rationals (every finite double is rational and `repr`
round-trips it); the non-finite doubles get their own constructors because
`json.dump` treats them specially.  `other s` stands for any Python object
of type `s` that `json.dump` cannot serialize (it raises `TypeError`). -/
inductive PyVal where
  | none
  | bool (b : Bool)
  | int (n : Int)
  | float (q : ℚ)
  | nan
  | inf
  | ninf
  | str (s : String)
  | list (xs : List PyVal)
  | dict (kvs : List (String × PyVal))
  | other (tyName : String)

/-- Python exceptions that the embedded code can raise. -/
inductive PyErr where
  | valueError (msg : String)
  | fileNotFoundError (msg : String)
  | typeError (msg : String)
  | httpException (status : Nat) (msg : String)
deriving DecidableEq

mutual
/-- `true` iff the value contains an object `json.dump` cannot serialize
(a `PyVal.other`-free value is dumpable: Python's default `allow_nan=True`
serializes `nan`/`inf` as the tokens `NaN`/`Infinity` without raising). -/
def hasUnserializable : PyVal → Bool
  | .other _ => true
  | .list xs => hasUnserializableList xs
  | .dict kvs => hasUnserializableKVs kvs
  | _ => false

def hasUnserializableList : List PyVal → Bool
  | [] => false
  | v :: vs => hasUnserializable v || hasUnserializableList vs

def hasUnserializableKVs : List (String × PyVal) → Bool
  | [] => false
  | (_, v) :: kvs => hasUnserializable v || hasUnserializableKVs kvs
end

mutual
/-- `true` iff the value contains a non-finite float (`NaN`, `inf`, `-inf`).
`json.dump` still serializes these (to the non-standard tokens
`NaN`, `Infinity`, `-Infinity`) because the code never passes
`allow_nan=False`. -/
def hasNonFinite : PyVal → Bool
  | .nan => true
  | .inf => true
  | .ninf => true
  | .list xs => hasNonFiniteList xs
  | .dict kvs => hasNonFiniteKVs kvs
  | _ => false

def hasNonFiniteList : List PyVal → Bool
  | [] => false
  | v :: vs => hasNonFinite v || hasNonFiniteList vs

def hasNonFiniteKVs : List (String × PyVal) → Bool
  | [] => false
  | (_, v) :: kvs => hasNonFinite v || hasNonFiniteKVs kvs
end

/-- A value is JSON-serializable in the strict sense of the specification:
no unsupported objects and no non-finite numbers. -/
def jsonSerializable (v : PyVal) : Bool :=
  !hasUnserializable v && !hasNonFinite v

mutual
/-- Abstract model of the byte length of the JSON text `json.dump`
produces for a document.  The Python standard library's exact rendering
(indentation, escaping) is not reproduced; no property below depends on the
numeric value, only on it being a function of the stored document. -/
def jsonSize : PyVal → Nat
  | .none => 4
  | .bool _ => 4
  | .int _ => 1
  | .float _ => 3
  | .nan => 3
  | .inf => 8
  | .ninf => 9
  | .str s => s.length + 2
  | .list xs => 2 + jsonSizeList xs
  | .dict kvs => 2 + jsonSizeKVs kvs
  | .other _ => 0

def jsonSizeList : List PyVal → Nat
  | [] => 0
  | v :: vs => jsonSize v + 1 + jsonSizeList vs

def jsonSizeKVs : List (String × PyVal) → Nat
  | [] => 0
  | (k, v) :: kvs => k.length + 4 + jsonSize v + 1 + jsonSizeKVs kvs
end

/-- `json.dump(payload, tf, ensure_ascii=False, indent=indent)`:
raises `TypeError` on an unserializable object, otherwise writes the
document.  The written text is modelled by the parsed document itself
(`json.load` of the produced text returns a deeply equal value for every
dumpable payload built from `none`/`bool`/`int`/`float`/`str`/`list`/`dict`;
the non-finite floats are emitted as the tokens `NaN`/`Infinity`/`-Infinity`
because `allow_nan` defaults to `True`). -/
def json_dump (payload : PyVal) : Except PyErr PyVal :=
  if hasUnserializable payload then
    .error (.typeError "Object is not JSON serializable")
  else
    .ok payload

/-! ## Filesystem state

Paths are strings.  A file's content is the parsed JSON document stored in
it (see `json_dump`); directories are tracked separately because
`acc.py` checks directory existence. -/

/-- Association-list lookup for file tables. -/
def lookupAssoc : List (String × PyVal) → String → Option PyVal
  | [], _ => Option.none
  | kv :: tl, p => if kv.1 = p then Option.some kv.2 else lookupAssoc tl p

/-- Remove every entry with key `p` from a file table. -/
def removeAssoc : List (String × PyVal) → String → List (String × PyVal)
  | [], _ => []
  | kv :: tl, p => if kv.1 = p then removeAssoc tl p else kv :: removeAssoc tl p

structure FS where
  dirs : List String
  files : List (String × PyVal)

/-- Content of the file at `p`, if present. -/
def FS.lookupFile (fs : FS) (p : String) : Option PyVal :=
  lookupAssoc fs.files p

/-- `Path.exists()` for a file path. -/
def FS.fileExists (fs : FS) (p : String) : Bool :=
  (fs.lookupFile p).isSome

/-- `Path.exists() and Path.is_dir()` for a directory path. -/
def FS.dirExists (fs : FS) (d : String) : Bool :=
  fs.dirs.contains d

/-- Create or overwrite the file at `p` with content `v`. -/
def FS.setFile (fs : FS) (p : String) (v : PyVal) : FS :=
  { fs with files := (p, v) :: removeAssoc fs.files p }

/-- Remove the file at `p` (no-op when absent). -/
def FS.removeFile (fs : FS) (p : String) : FS :=
  { fs with files := removeAssoc fs.files p }

/-- `mkdir(parents=True, exist_ok=True)`. -/
def FS.mkdir (fs : FS) (d : String) : FS :=
  { fs with dirs := if fs.dirs.contains d then fs.dirs else d :: fs.dirs }

/-! ## pathlib name manipulation

`_atomic_write_json` builds the backup name with
`target.with_suffix(target.suffix + f".{ts}.bak")`; `pySuffix` and
`pyWithSuffix` embed `pathlib.PurePath.suffix` and `.with_suffix` as they
act on the final path component. -/

/-- `pathlib`: the suffix is `name[i:]` where `i = name.rfind(".")`,
provided `0 < i < len(name) - 1`, else the empty string. -/
def pySuffix (name : String) : String :=
  let cs := name.toList
  match cs.reverse.findIdx? (fun c => c = '.') with
  | Option.none => ""
  | Option.some j =>
    let i := cs.length - 1 - j
    if 0 < i ∧ i < cs.length - 1 then String.mk (cs.drop i) else ""

/-- `pathlib.PurePath.with_suffix`: drop the old suffix (if any) from the
name and append the new one. -/
def pyWithSuffix (name suf : String) : String :=
  let old := pySuffix name
  if old = "" then name ++ suf
  else String.mk (name.toList.take (name.length - old.length)) ++ suf

/-- The backup file name `_atomic_write_json` derives from the target's
name and the timestamp `ts`:
`target.with_suffix(target.suffix + f".{ts}.bak")`. -/
def backupFileName (name ts : String) : String :=
  pyWithSuffix name (pySuffix name ++ "." ++ ts ++ ".bak")

/-- A target location: the account directory and the file name inside it.
`_atomic_write_json` receives such a `Path` from `_target_path`. -/
structure PyPath where
  parent : String
  name : String
deriving DecidableEq

/-- The full path string of a target. -/
def PyPath.str (p : PyPath) : String :=
  p.parent ++ "/" ++ p.name

/-- The full path of the timestamped backup sibling of `p`. -/
def PyPath.backupPath (p : PyPath) (ts : String) : String :=
  p.parent ++ "/" ++ backupFileName p.name ts

/-! ## The atomic write as a script of filesystem operations

`_atomic_write_json` performs, in source order: `mkdir` of the parent,
the optional backup copy, creation of the temporary file, `json.dump`
into it, and `os.replace` onto the target.  Expressing the successful
run as a list of primitive operations lets interruption before the
atomic replace be stated as executing a proper prefix of the list. -/

inductive FsOp where
  | mkdirP (d : String)
  | copy (src dst : String)
  | createTemp (p : String)
  | writeTemp (p : String) (v : PyVal)
  | replace (src dst : String)

/-- Effect of one primitive operation on the filesystem. -/
def FS.applyOp (fs : FS) : FsOp → FS
  | .mkdirP d => fs.mkdir d
  | .copy src dst =>
    match fs.lookupFile src with
    | Option.some c => fs.setFile dst c
    | Option.none => fs
  | .createTemp p => fs.setFile p (PyVal.str "")
  | .writeTemp p v => fs.setFile p v
  | .replace src dst =>
    match fs.lookupFile src with
    | Option.some c => (fs.removeFile src).setFile dst c
    | Option.none => fs

/-- Run a list of operations left to right. -/
def FS.runOps (fs : FS) (ops : List FsOp) : FS :=
  ops.foldl FS.applyOp fs

/-- The operations `_atomic_write_json(target, payload, indent, backup_existing)`
performs on filesystem `fs`, in source order.  `tmp` is the fresh name
`NamedTemporaryFile` picks in `target.parent`; `ts` is
`time.strftime("%Y%m%d-%H%M%S")`.  When `json.dump` raises `TypeError`
the script stops after creating the temporary file: the partially
written temporary is orphaned (`delete=False`) and no replace happens. -/
def atomicWriteScript (fs : FS) (target : PyPath) (payload : PyVal)
    (tmp ts : String) (backup_existing : Bool) : List FsOp :=
  [FsOp.mkdirP target.parent]
  ++ (if backup_existing && fs.fileExists target.str then
        [FsOp.copy target.str (target.backupPath ts)]
      else [])
  ++ [FsOp.createTemp tmp]
  ++ (match json_dump payload with
      | .ok doc => [FsOp.writeTemp tmp doc, FsOp.replace tmp target.str]
      | .error _ => [])

/-- `_atomic_write_json`: runs the script and returns the final state
together with the result of the Python call — `(status, byte_count)` on
success, the raised exception otherwise.  As in the source, `status` is
computed from `target.exists()` AFTER `os.replace` has run. -/
def _atomic_write_json (fs : FS) (target : PyPath) (payload : PyVal)
    (indent : Nat) (backup_existing : Bool) (tmp ts : String) :
    FS × Except PyErr (String × Nat) :=
  let fs' := fs.runOps (atomicWriteScript fs target payload tmp ts backup_existing)
  match json_dump payload with
  | .error e => (fs', .error e)
  | .ok doc =>
    let status := if fs'.fileExists target.str then "updated" else "created"
    let size := if fs'.fileExists target.str then jsonSize doc else 0
    (fs', .ok (status, size))

/-! ## Identifier validation and path resolution (`acc.py`, `Uploader.py`) -/

/-- Python `str.strip()` whitespace (the ASCII cases; the account ids at
issue are ASCII). -/
def isPyWhitespace (c : Char) : Bool :=
  c = ' ' || c = '\t' || c = '\n' || c = '\r' || c.toNat = 11 || c.toNat = 12

/-- `str.strip()`: drop whitespace from both ends. -/
def pyStrip (s : String) : String :=
  String.mk (((s.toList.dropWhile isPyWhitespace).reverse.dropWhile isPyWhitespace).reverse)

/-- A character allowed by the pattern `[A-Za-z0-9_\-]`. -/
def isIdChar (c : Char) : Bool :=
  c.isAlpha || c.isDigit || c = '_' || c = '-'

/-- The regex `^[A-Za-z0-9_\-]+$` (used both by `acc.py`'s `_id_ok` and by
`Uploader.py`'s `VALID_ACCOUNT` pydantic constraint). -/
def matchesIdPattern (s : String) : Bool :=
  !s.isEmpty && s.toList.all isIdChar

/-- `Uploader.py`'s `VALID_ACCOUNT = constr(pattern=r"^[A-Za-z0-9_\-]+$")`:
the raw request string must match the pattern (no stripping). -/
def VALID_ACCOUNT (s : String) : Bool :=
  matchesIdPattern s

/-- The configured base directory (`ACCOUNT_DATA_DIR`).  Its concrete value
is deployment configuration; only its fixedness matters here. -/
def ACCOUNT_DATA_DIR : String :=
  "/data/customer_data"

/-- The fixed domain-to-filename table, in source order. -/
def ACCOUNT_FILENAMES : List (String × String) :=
  [("transactions", "transactions.json"),
   ("payments", "payments.json"),
   ("statements", "statements.json"),
   ("account_summary", "account_summary.json")]

/-- `acc._sanitize_account_id`: strip, then require the pattern, else
raise `ValueError`. -/
def _sanitize_account_id (account_id : String) : Except PyErr String :=
  let stripped := pyStrip account_id
  if matchesIdPattern stripped then .ok stripped
  else .error (.valueError ("Invalid account_id: " ++ stripped))

/-- `acc.account_dir`: the folder path for this account id (does not
create it). -/
def account_dir (account_id : String) : Except PyErr String :=
  (_sanitize_account_id account_id).map (fun t => ACCOUNT_DATA_DIR ++ "/" ++ t)

/-- `acc.get_account_paths`: paths of all four json files, raising
`FileNotFoundError` when the account directory does not exist. -/
def get_account_paths (fs : FS) (account_id : String) :
    Except PyErr (List (String × String)) :=
  match account_dir account_id with
  | .error e => .error e
  | .ok base =>
    if fs.dirExists base then
      .ok (ACCOUNT_FILENAMES.map (fun kf => (kf.1, base ++ "/" ++ kf.2)))
    else
      .error (.fileNotFoundError ("Account folder not found: " ++ base))

/-- `acc._load_json`: open and parse the file.  Files in this model always
hold parsed documents, so the only failure is a missing file. -/
def _load_json (fs : FS) (p : String) : Except PyErr PyVal :=
  match fs.lookupFile p with
  | Option.some v => .ok v
  | Option.none => .error (.fileNotFoundError ("No such file: " ++ p))

/-- `acc.load_account_bundle` (the strict, `lru_cache`d variant; the cache
adds no behaviour to a pure read and is not modelled): resolve, list every
missing file, raise `FileNotFoundError` naming all of them, else load all
four. -/
def load_account_bundle (fs : FS) (account_id : String) :
    Except PyErr (List (String × PyVal)) :=
  match get_account_paths fs account_id with
  | .error e => .error e
  | .ok paths =>
    let missing := paths.filter (fun kp => !fs.fileExists kp.2)
    if missing.isEmpty then
      paths.mapM (fun kp => (_load_json fs kp.2).map (fun v => (kp.1, v)))
    else
      .error (.fileNotFoundError ("Missing required file(s) for " ++ account_id ++ ": "
        ++ String.intercalate ", " (missing.map (fun kp => kp.1 ++ "→" ++ kp.2))))

/-- The literal default bundle
`{"transactions": [], "payments": [], "statements": [], "account_summary": {}}`. -/
def defaultBundle : List (String × PyVal) :=
  [("transactions", PyVal.list []),
   ("payments", PyVal.list []),
   ("statements", PyVal.list []),
   ("account_summary", PyVal.dict [])]

/-- `acc.try_load_account_bundle`: non-raising variant.  Only
`FileNotFoundError` from resolution is caught; per-domain, a missing file
defaults to `[]` for the three list domains and `{}` for
`account_summary`. -/
def try_load_account_bundle (fs : FS) (account_id : String) :
    Except PyErr (List (String × PyVal) × List (String × String)) :=
  match get_account_paths fs account_id with
  | .error (.fileNotFoundError _) => .ok (defaultBundle, [])
  | .error e => .error e
  | .ok paths =>
    .ok (paths.map (fun kp =>
      (kp.1,
        match fs.lookupFile kp.2 with
        | Option.some v => v
        | Option.none =>
          if kp.1 = "transactions" || kp.1 = "payments" || kp.1 = "statements" then
            PyVal.list []
          else
            PyVal.dict [])), paths)

/-- `Uploader._account_dir`: resolve the folder and create it
(`mkdir(parents=True, exist_ok=True)`). -/
def _account_dir (fs : FS) (account_id : String) : FS × String :=
  let p := ACCOUNT_DATA_DIR ++ "/" ++ account_id
  (fs.mkdir p, p)

/-- `Uploader._target_path`: reject an unknown domain with HTTP 400, else
resolve the account directory (creating it) and append the domain's
filename. -/
def _target_path (fs : FS) (account_id domain : String) :
    FS × Except PyErr PyPath :=
  match ACCOUNT_FILENAMES.find? (fun kf => kf.1 = domain) with
  | Option.none =>
    (fs, .error (.httpException 400 ("Unsupported domain: " ++ domain)))
  | Option.some kf =>
    let (fs', base) := _account_dir fs account_id
    (fs', .ok ⟨base, kf.2⟩)

/-! ## Release-tag upserts (`mongo_util.py`)

The `release_tags` collection is a list of documents in natural order;
`find_one` / `update_one` with a `projectId` filter touch the first
matching document. -/

structure TagDoc where
  projectId : String
  projectName : String
  projectDisplayName : String
  projectType : String
  project_web_url : String
  tag_name : String
  new_tag_status : String
  new_tag_pipeline : String
  pat_uat_deployment : String
  current_deployed_tag_prod : String
  current_deployed_tag_prod_pipeline : String
  diff_url : String
  jira_issue_list : List String
  created_at : Nat
  updated_at : Nat
deriving DecidableEq

/-- `update_one` without `upsert`: modify the first matching document,
or do nothing when none matches. -/
def updateFirst (p : TagDoc → Bool) (f : TagDoc → TagDoc) : List TagDoc → List TagDoc
  | [] => []
  | d :: ds => if p d then f d :: ds else d :: updateFirst p f ds

/-- `mongo_util.update_release_tags`: read the existing document's
`jira_issue_list`, union it (as a Python `set`) with the incoming list,
and `$set` the merged fields on the first document with this `projectId`
(no upsert).  Python's `list(set(...))` has arbitrary order; the union is
modelled as `dedup` of the concatenation, which has exactly the union as
its elements.  The two `if` guards mirror Python truthiness (`None` and
`[]` are both falsy). -/
def update_release_tags (coll : List TagDoc) (projectId latest_tag status
    new_tag_pipeline patuat_deploy_status diff_url : String)
    (jira_issue_list : Option (List String)) (now : Nat) : List TagDoc :=
  let existing := coll.find? (fun d => d.projectId = projectId)
  let fromIncoming : List String :=
    match jira_issue_list with
    | Option.some l => if l.isEmpty then [] else l
    | Option.none => []
  let fromExisting : List String :=
    match existing with
    | Option.some d => if d.jira_issue_list.isEmpty then [] else d.jira_issue_list
    | Option.none => []
  let combined_list := (fromIncoming ++ fromExisting).dedup
  updateFirst (fun d => d.projectId = projectId)
    (fun d =>
      { d with
        tag_name := latest_tag
        new_tag_status := status
        new_tag_pipeline := new_tag_pipeline
        pat_uat_deployment := patuat_deploy_status
        diff_url := diff_url
        jira_issue_list := combined_list
        updated_at := now })
    coll

/-! ## Basic filesystem lemmas -/

theorem lookupAssoc_removeAssoc_self (l : List (String × PyVal)) (p : String) :
    lookupAssoc (removeAssoc l p) p = Option.none := by
  induction l with
  | nil => rfl
  | cons kv tl ih =>
    by_cases hp : kv.1 = p
    · simpa [removeAssoc, hp] using ih
    · simpa [removeAssoc, lookupAssoc, hp] using ih

theorem lookupAssoc_removeAssoc_ne (l : List (String × PyVal)) (p q : String)
    (h : q ≠ p) : lookupAssoc (removeAssoc l p) q = lookupAssoc l q := by
  have h' : ¬ p = q := fun e => h e.symm
  induction l with
  | nil => rfl
  | cons kv tl ih =>
    by_cases hp : kv.1 = p
    · simpa [removeAssoc, lookupAssoc, hp, h'] using ih
    · by_cases hq : kv.1 = q
      · simp [removeAssoc, lookupAssoc, hp, hq, h]
      · simpa [removeAssoc, lookupAssoc, hp, hq] using ih

theorem lookupFile_mkdir (fs : FS) (d p : String) :
    (fs.mkdir d).lookupFile p = fs.lookupFile p := rfl

theorem lookupFile_setFile_self (fs : FS) (p : String) (v : PyVal) :
    (fs.setFile p v).lookupFile p = Option.some v := by
  simp [FS.setFile, FS.lookupFile, lookupAssoc]

theorem lookupFile_setFile_ne (fs : FS) (p q : String) (v : PyVal) (h : q ≠ p) :
    (fs.setFile p v).lookupFile q = fs.lookupFile q := by
  simp only [FS.setFile, FS.lookupFile, lookupAssoc]
  rw [if_neg (fun e : p = q => h e.symm), lookupAssoc_removeAssoc_ne fs.files p q h]

theorem lookupFile_removeFile_self (fs : FS) (p : String) :
    (fs.removeFile p).lookupFile p = Option.none :=
  lookupAssoc_removeAssoc_self fs.files p

theorem lookupFile_removeFile_ne (fs : FS) (p q : String) (h : q ≠ p) :
    (fs.removeFile p).lookupFile q = fs.lookupFile q :=
  lookupAssoc_removeAssoc_ne fs.files p q h

/-! ## Lemmas about the write script -/

/-- The file paths an operation writes to. -/
def opWrites : FsOp → String → Prop
  | .mkdirP _, _ => False
  | .copy _ dst, t => dst = t
  | .createTemp p, t => p = t
  | .writeTemp p _, t => p = t
  | .replace src dst, t => src = t ∨ dst = t

theorem applyOp_lookup_of_not_writes (fs : FS) (op : FsOp) (t : String)
    (h : ¬ opWrites op t) : (fs.applyOp op).lookupFile t = fs.lookupFile t := by
  cases op with
  | mkdirP d => exact lookupFile_mkdir fs d t
  | copy src dst =>
    simp only [opWrites] at h
    simp only [FS.applyOp]
    cases fs.lookupFile src with
    | none => rfl
    | some c => exact lookupFile_setFile_ne fs dst t c (fun e => h e.symm)
  | createTemp p =>
    simp only [opWrites] at h
    exact lookupFile_setFile_ne fs p t _ (fun e => h e.symm)
  | writeTemp p v =>
    simp only [opWrites] at h
    exact lookupFile_setFile_ne fs p t v (fun e => h e.symm)
  | replace src dst =>
    simp only [opWrites, not_or] at h
    simp only [FS.applyOp]
    cases hsrc : fs.lookupFile src with
    | none => rfl
    | some c =>
      rw [lookupFile_setFile_ne _ dst t c (fun e => h.2 e.symm),
        lookupFile_removeFile_ne fs src t (fun e => h.1 e.symm)]

theorem runOps_lookup_of_not_writes (ops : List FsOp) (fs : FS) (t : String)
    (h : ∀ op ∈ ops, ¬ opWrites op t) :
    (fs.runOps ops).lookupFile t = fs.lookupFile t := by
  induction ops generalizing fs with
  | nil => rfl
  | cons op tl ih =>
    have h1 : (fs.applyOp op).lookupFile t = fs.lookupFile t :=
      applyOp_lookup_of_not_writes fs op t (h op (List.mem_cons_self op tl))
    have h2 := ih (fs.applyOp op) (fun o ho => h o (List.mem_cons_of_mem op ho))
    calc (fs.runOps (op :: tl)).lookupFile t
        = ((fs.applyOp op).runOps tl).lookupFile t := rfl
      _ = (fs.applyOp op).lookupFile t := h2
      _ = fs.lookupFile t := h1

theorem take_append_le {α : Type} (l₁ l₂ : List α) (k : Nat) (h : k ≤ l₁.length) :
    (l₁ ++ l₂).take k = l₁.take k := by
  induction l₁ generalizing k with
  | nil =>
    have : k = 0 := Nat.le_zero.mp (by simpa using h)
    simp [this]
  | cons a tl ih =>
    cases k with
    | zero => rfl
    | succ k =>
      simp only [List.cons_append, List.take_succ_cons]
      rw [ih k (by simpa using h)]

theorem json_dump_ok (payload : PyVal) (hser : hasUnserializable payload = false) :
    json_dump payload = Except.ok payload := by
  simp [json_dump, hser]

theorem json_dump_error (payload : PyVal) (hser : hasUnserializable payload = true) :
    json_dump payload = Except.error (PyErr.typeError "Object is not JSON serializable") := by
  simp [json_dump, hser]

theorem script_of_backup (fs : FS) (target : PyPath) (payload : PyVal) (tmp ts : String)
    (hser : hasUnserializable payload = false)
    (hb : fs.fileExists target.str = true) :
    atomicWriteScript fs target payload tmp ts true
      = [FsOp.mkdirP target.parent,
         FsOp.copy target.str (target.backupPath ts),
         FsOp.createTemp tmp,
         FsOp.writeTemp tmp payload,
         FsOp.replace tmp target.str] := by
  simp [atomicWriteScript, json_dump_ok payload hser, hb]

theorem script_of_no_backup (fs : FS) (target : PyPath) (payload : PyVal)
    (tmp ts : String) (be : Bool)
    (hser : hasUnserializable payload = false)
    (hb : (be && fs.fileExists target.str) = false) :
    atomicWriteScript fs target payload tmp ts be
      = [FsOp.mkdirP target.parent,
         FsOp.createTemp tmp,
         FsOp.writeTemp tmp payload,
         FsOp.replace tmp target.str] := by
  simp only [atomicWriteScript, json_dump_ok payload hser, hb]
  rfl

theorem runScript_backup_eq (fs : FS) (target : PyPath) (payload : PyVal)
    (tmp ts : String) (c : PyVal)
    (hser : hasUnserializable payload = false)
    (hc : fs.lookupFile target.str = Option.some c) :
    fs.runOps (atomicWriteScript fs target payload tmp ts true)
      = (((((fs.mkdir target.parent).setFile (target.backupPath ts) c
          ).setFile tmp (PyVal.str "")).setFile tmp payload).removeFile tmp
          ).setFile target.str payload := by
  rw [script_of_backup fs target payload tmp ts hser (by simp [FS.fileExists, hc])]
  simp only [FS.runOps, List.foldl_cons, List.foldl_nil, FS.applyOp]
  rw [lookupFile_mkdir fs target.parent target.str, hc,
    lookupFile_setFile_self]

theorem runScript_no_backup_eq (fs : FS) (target : PyPath) (payload : PyVal)
    (tmp ts : String) (be : Bool)
    (hser : hasUnserializable payload = false)
    (hb : (be && fs.fileExists target.str) = false) :
    fs.runOps (atomicWriteScript fs target payload tmp ts be)
      = ((((fs.mkdir target.parent).setFile tmp (PyVal.str "")
          ).setFile tmp payload).removeFile tmp).setFile target.str payload := by
  rw [script_of_no_backup fs target payload tmp ts be hser hb]
  simp only [FS.runOps, List.foldl_cons, List.foldl_nil, FS.applyOp]
  rw [lookupFile_setFile_self]

theorem runScript_error_backup_eq (fs : FS) (target : PyPath) (payload : PyVal)
    (tmp ts : String) (c : PyVal)
    (hser : hasUnserializable payload = true)
    (hc : fs.lookupFile target.str = Option.some c) :
    fs.runOps (atomicWriteScript fs target payload tmp ts true)
      = ((fs.mkdir target.parent).setFile (target.backupPath ts) c
          ).setFile tmp (PyVal.str "") := by
  have hscript : atomicWriteScript fs target payload tmp ts true
      = [FsOp.mkdirP target.parent,
         FsOp.copy target.str (target.backupPath ts),
         FsOp.createTemp tmp] := by
    simp [atomicWriteScript, json_dump_error payload hser, FS.fileExists, hc]
  rw [hscript]
  simp only [FS.runOps, List.foldl_cons, List.foldl_nil, FS.applyOp]
  rw [lookupFile_mkdir fs target.parent target.str, hc]

theorem runScript_error_no_backup_eq (fs : FS) (target : PyPath) (payload : PyVal)
    (tmp ts : String) (be : Bool)
    (hser : hasUnserializable payload = true)
    (hb : (be && fs.fileExists target.str) = false) :
    fs.runOps (atomicWriteScript fs target payload tmp ts be)
      = (fs.mkdir target.parent).setFile tmp (PyVal.str "") := by
  have hscript : atomicWriteScript fs target payload tmp ts be
      = [FsOp.mkdirP target.parent, FsOp.createTemp tmp] := by
    simp only [atomicWriteScript, json_dump_error payload hser, hb]
    rfl
  rw [hscript]
  rfl

/-! ## Lemmas about the backup name -/

theorem string_append_assoc (a b c : String) : (a ++ b) ++ c = a ++ (b ++ c) := by
  obtain ⟨la⟩ := a; obtain ⟨lb⟩ := b; obtain ⟨lc⟩ := c
  show String.mk ((la ++ lb) ++ lc) = String.mk (la ++ (lb ++ lc))
  rw [List.append_assoc]

theorem pySuffix_eq_drop (name : String) (h : pySuffix name ≠ "") :
    ∃ i, 0 < i ∧ i < name.toList.length ∧
      pySuffix name = String.mk (name.toList.drop i) := by
  by_cases hfind : ∃ j, name.toList.reverse.findIdx? (fun c => c = '.') = Option.some j
  · obtain ⟨j, hj⟩ := hfind
    by_cases hcond : 0 < name.toList.length - 1 - j ∧
        name.toList.length - 1 - j < name.toList.length - 1
    · refine ⟨name.toList.length - 1 - j, hcond.1, by omega, ?_⟩
      simp only [pySuffix, hj]
      rw [if_pos hcond]
    · exfalso
      apply h
      simp only [pySuffix, hj]
      rw [if_neg hcond]
  · have hnone : name.toList.reverse.findIdx? (fun c => c = '.') = Option.none := by
      cases hx : name.toList.reverse.findIdx? (fun c => c = '.') with
      | none => rfl
      | some j => exact absurd ⟨j, hx⟩ hfind
    exfalso
    apply h
    simp only [pySuffix, hnone]

theorem stem_append_suffix (name : String) (h : pySuffix name ≠ "") :
    String.mk (name.toList.take (name.length - (pySuffix name).length)) ++ pySuffix name
      = name := by
  obtain ⟨i, hpos, hlt, hsuf⟩ := pySuffix_eq_drop name h
  rw [hsuf]
  obtain ⟨data⟩ := name
  have hlt' : i < data.length := hlt
  have harith : (String.mk data).length
      - (String.mk (List.drop i (String.mk data).toList)).length = i := by
    show data.length - (List.drop i data).length = i
    rw [List.length_drop]
    omega
  rw [harith]
  show String.mk (List.take i data ++ List.drop i data) = String.mk data
  rw [List.take_append_drop]

/-- Whenever the target's name has a (pathlib) suffix — as all four domain
filenames `*.json` do — the backup name is exactly the whole original
filename followed by `.<ts>.bak`. -/
theorem backupFileName_eq (name ts : String) (h : pySuffix name ≠ "") :
    backupFileName name ts = name ++ "." ++ ts ++ ".bak" := by
  unfold backupFileName pyWithSuffix
  rw [if_neg h]
  conv_rhs => rw [← stem_append_suffix name h]
  simp only [string_append_assoc]

theorem atomic_write_fst (fs : FS) (target : PyPath) (payload : PyVal)
    (indent : Nat) (be : Bool) (tmp ts : String) :
    (_atomic_write_json fs target payload indent be tmp ts).1
      = fs.runOps (atomicWriteScript fs target payload tmp ts be) := by
  unfold _atomic_write_json
  cases json_dump payload <;> rfl

theorem atomic_write_snd_of_error (fs : FS) (target : PyPath) (payload : PyVal)
    (indent : Nat) (be : Bool) (tmp ts : String)
    (hser : hasUnserializable payload = true) :
    (_atomic_write_json fs target payload indent be tmp ts).2
      = Except.error (PyErr.typeError "Object is not JSON serializable") := by
  unfold _atomic_write_json
  rw [json_dump_error payload hser]

/-! ## Post-state lemmas for `_atomic_write_json` -/

theorem write_ok_lookup_target (fs : FS) (target : PyPath) (payload : PyVal)
    (indent : Nat) (be : Bool) (tmp ts : String)
    (hser : hasUnserializable payload = false) :
    (_atomic_write_json fs target payload indent be tmp ts).1.lookupFile target.str
      = Option.some payload := by
  rw [atomic_write_fst]
  by_cases hb : (be && fs.fileExists target.str) = true
  · have hb' := hb
    rw [Bool.and_eq_true] at hb'
    have hex : (fs.lookupFile target.str).isSome = true := hb'.2
    obtain ⟨c, hc⟩ := Option.isSome_iff_exists.mp hex
    have hbe : be = true := hb'.1
    subst hbe
    rw [runScript_backup_eq fs target payload tmp ts c hser hc]
    exact lookupFile_setFile_self _ _ _
  · rw [runScript_no_backup_eq fs target payload tmp ts be hser (by simpa using hb)]
    exact lookupFile_setFile_self _ _ _

theorem write_ok_lookup_backup (fs : FS) (target : PyPath) (payload : PyVal)
    (indent : Nat) (tmp ts : String) (c : PyVal)
    (hser : hasUnserializable payload = false)
    (hc : fs.lookupFile target.str = Option.some c)
    (hbak : target.backupPath ts ≠ target.str)
    (hbt : target.backupPath ts ≠ tmp) :
    (_atomic_write_json fs target payload indent true tmp ts).1.lookupFile
      (target.backupPath ts) = Option.some c := by
  rw [atomic_write_fst, runScript_backup_eq fs target payload tmp ts c hser hc,
    lookupFile_setFile_ne _ _ _ _ hbak, lookupFile_removeFile_ne _ _ _ hbt,
    lookupFile_setFile_ne _ _ _ _ hbt, lookupFile_setFile_ne _ _ _ _ hbt]
  exact lookupFile_setFile_self _ _ _

theorem write_ok_lookup_other_backup (fs : FS) (target : PyPath) (payload : PyVal)
    (indent : Nat) (tmp ts : String) (c : PyVal) (p : String)
    (hser : hasUnserializable payload = false)
    (hc : fs.lookupFile target.str = Option.some c)
    (htmpfresh : fs.lookupFile tmp = Option.none)
    (hpt : p ≠ target.str) (hpb : p ≠ target.backupPath ts) :
    (_atomic_write_json fs target payload indent true tmp ts).1.lookupFile p
      = fs.lookupFile p := by
  rw [atomic_write_fst, runScript_backup_eq fs target payload tmp ts c hser hc]
  by_cases hptmp : p = tmp
  · subst hptmp
    rw [lookupFile_setFile_ne _ _ _ _ hpt, lookupFile_removeFile_self, htmpfresh]
  · rw [lookupFile_setFile_ne _ _ _ _ hpt, lookupFile_removeFile_ne _ _ _ hptmp,
      lookupFile_setFile_ne _ _ _ _ hptmp, lookupFile_setFile_ne _ _ _ _ hptmp,
      lookupFile_setFile_ne _ _ _ _ hpb, lookupFile_mkdir]

theorem write_ok_lookup_other_no_backup (fs : FS) (target : PyPath) (payload : PyVal)
    (indent : Nat) (be : Bool) (tmp ts : String) (p : String)
    (hser : hasUnserializable payload = false)
    (hb : (be && fs.fileExists target.str) = false)
    (htmpfresh : fs.lookupFile tmp = Option.none)
    (hpt : p ≠ target.str) :
    (_atomic_write_json fs target payload indent be tmp ts).1.lookupFile p
      = fs.lookupFile p := by
  rw [atomic_write_fst, runScript_no_backup_eq fs target payload tmp ts be hser hb]
  by_cases hptmp : p = tmp
  · subst hptmp
    rw [lookupFile_setFile_ne _ _ _ _ hpt, lookupFile_removeFile_self, htmpfresh]
  · rw [lookupFile_setFile_ne _ _ _ _ hpt, lookupFile_removeFile_ne _ _ _ hptmp,
      lookupFile_setFile_ne _ _ _ _ hptmp, lookupFile_setFile_ne _ _ _ _ hptmp,
      lookupFile_mkdir]

theorem write_err_lookup_target_backup (fs : FS) (target : PyPath) (payload : PyVal)
    (indent : Nat) (tmp ts : String) (c : PyVal)
    (hser : hasUnserializable payload = true)
    (hc : fs.lookupFile target.str = Option.some c)
    (htmp : tmp ≠ target.str)
    (hbak : target.backupPath ts ≠ target.str) :
    (_atomic_write_json fs target payload indent true tmp ts).1.lookupFile target.str
      = Option.some c := by
  rw [atomic_write_fst, runScript_error_backup_eq fs target payload tmp ts c hser hc,
    lookupFile_setFile_ne _ _ _ _ (Ne.symm htmp),
    lookupFile_setFile_ne _ _ _ _ (Ne.symm hbak), lookupFile_mkdir, hc]

theorem write_err_lookup_backup (fs : FS) (target : PyPath) (payload : PyVal)
    (indent : Nat) (tmp ts : String) (c : PyVal)
    (hser : hasUnserializable payload = true)
    (hc : fs.lookupFile target.str = Option.some c)
    (hbt : target.backupPath ts ≠ tmp) :
    (_atomic_write_json fs target payload indent true tmp ts).1.lookupFile
      (target.backupPath ts) = Option.some c := by
  rw [atomic_write_fst, runScript_error_backup_eq fs target payload tmp ts c hser hc,
    lookupFile_setFile_ne _ _ _ _ hbt]
  exact lookupFile_setFile_self _ _ _

theorem write_err_lookup_target_no_backup (fs : FS) (target : PyPath) (payload : PyVal)
    (indent : Nat) (be : Bool) (tmp ts : String)
    (hser : hasUnserializable payload = true)
    (hb : (be && fs.fileExists target.str) = false)
    (htmp : tmp ≠ target.str) :
    (_atomic_write_json fs target payload indent be tmp ts).1.lookupFile target.str
      = fs.lookupFile target.str := by
  rw [atomic_write_fst, runScript_error_no_backup_eq fs target payload tmp ts be hser hb,
    lookupFile_setFile_ne _ _ _ _ (Ne.symm htmp), lookupFile_mkdir]

/-! ## Claim theorems -/

/-- C1: For every write of a JSON payload to a target path, if the
write fails before the atomic replace step (during serialization, while
writing the temporary file, or anywhere earlier), the target file is left
in its pre-write state: after executing any prefix of the write script
that stops before the final `os.replace` — which is every possible stop
when `json.dump` raises — the target's content (or absence) is exactly
what it was before the write, so at no point is a partially-written
target visible. -/
theorem c1_interrupted_write_preserves_target (fs : FS) (target : PyPath)
    (payload : PyVal) (tmp ts : String) (be : Bool) (k : Nat)
    (htmp : tmp ≠ target.str)
    (hbak : target.backupPath ts ≠ target.str)
    (hk : hasUnserializable payload = true
          ∨ k < (atomicWriteScript fs target payload tmp ts be).length) :
    (fs.runOps ((atomicWriteScript fs target payload tmp ts be).take k)).lookupFile
        target.str
      = fs.lookupFile target.str := by
  have hnw : ∀ op, op ∈ [FsOp.mkdirP target.parent,
      FsOp.copy target.str (target.backupPath ts),
      FsOp.createTemp tmp, FsOp.writeTemp tmp payload] →
      ¬ opWrites op target.str := by
    intro op hop
    simp only [List.mem_cons, List.not_mem_nil, or_false] at hop
    rcases hop with rfl | rfl | rfl | rfl
    · simp [opWrites]
    · exact hbak
    · exact htmp
    · exact htmp
  cases hser : hasUnserializable payload with
  | true =>
    by_cases hb : (be && fs.fileExists target.str) = true
    · have hscript : atomicWriteScript fs target payload tmp ts be
          = [FsOp.mkdirP target.parent,
             FsOp.copy target.str (target.backupPath ts),
             FsOp.createTemp tmp] := by
        simp [atomicWriteScript, json_dump_error payload hser, hb]
      rw [hscript]
      apply runOps_lookup_of_not_writes
      intro op hop
      refine hnw op ?_
      have := List.take_subset k _ hop
      simp only [List.mem_cons, List.not_mem_nil, or_false] at this ⊢
      tauto
    · have hb' : (be && fs.fileExists target.str) = false := by
        simpa using hb
      have hscript : atomicWriteScript fs target payload tmp ts be
          = [FsOp.mkdirP target.parent, FsOp.createTemp tmp] := by
        simp [atomicWriteScript, json_dump_error payload hser, hb']
      rw [hscript]
      apply runOps_lookup_of_not_writes
      intro op hop
      refine hnw op ?_
      have := List.take_subset k _ hop
      simp only [List.mem_cons, List.not_mem_nil, or_false] at this ⊢
      tauto
  | false =>
    have hlen := hk.resolve_left (by simp [hser])
    by_cases hb : (be && fs.fileExists target.str) = true
    · have hscript : atomicWriteScript fs target payload tmp ts be
          = [FsOp.mkdirP target.parent,
             FsOp.copy target.str (target.backupPath ts),
             FsOp.createTemp tmp, FsOp.writeTemp tmp payload]
            ++ [FsOp.replace tmp target.str] := by
        simp [atomicWriteScript, json_dump_ok payload hser, hb]
      rw [hscript] at hlen ⊢
      have hk4 : k ≤ 4 := by
        simp only [List.length_append, List.length_cons, List.length_nil] at hlen
        omega
      rw [take_append_le _ _ k (by simp only [List.length_cons, List.length_nil]; omega)]
      apply runOps_lookup_of_not_writes
      intro op hop
      exact hnw op (List.take_subset k _ hop)
    · have hb' : (be && fs.fileExists target.str) = false := by
        simpa using hb
      have hscript : atomicWriteScript fs target payload tmp ts be
          = [FsOp.mkdirP target.parent,
             FsOp.createTemp tmp, FsOp.writeTemp tmp payload]
            ++ [FsOp.replace tmp target.str] := by
        simp [atomicWriteScript, json_dump_ok payload hser, hb']
      rw [hscript] at hlen ⊢
      have hk3 : k ≤ 3 := by
        simp only [List.length_append, List.length_cons, List.length_nil] at hlen
        omega
      rw [take_append_le _ _ k (by simp only [List.length_cons, List.length_nil]; omega)]
      apply runOps_lookup_of_not_writes
      intro op hop
      refine hnw op ?_
      have := List.take_subset k _ hop
      simp only [List.mem_cons, List.not_mem_nil, or_false] at this ⊢
      tauto

/-- Witness for C1: concrete interrupted write (stopping after the backup
copy, before the temporary file is even created) leaves the target's
content unchanged. -/
theorem c1_interrupted_write_preserves_target_witness :
    (FS.runOps ⟨["/data/customer_data/acct-1"],
        [("/data/customer_data/acct-1/transactions.json", PyVal.int 1)]⟩
      ((atomicWriteScript
          ⟨["/data/customer_data/acct-1"],
            [("/data/customer_data/acct-1/transactions.json", PyVal.int 1)]⟩
          ⟨"/data/customer_data/acct-1", "transactions.json"⟩
          (PyVal.list []) "/data/customer_data/acct-1/tmpw8x" "20250101-120000"
          true).take 2)).lookupFile
        (PyPath.str ⟨"/data/customer_data/acct-1", "transactions.json"⟩)
      = FS.lookupFile ⟨["/data/customer_data/acct-1"],
          [("/data/customer_data/acct-1/transactions.json", PyVal.int 1)]⟩
          (PyPath.str ⟨"/data/customer_data/acct-1", "transactions.json"⟩) :=
  c1_interrupted_write_preserves_target
    ⟨["/data/customer_data/acct-1"],
      [("/data/customer_data/acct-1/transactions.json", PyVal.int 1)]⟩
    ⟨"/data/customer_data/acct-1", "transactions.json"⟩
    (PyVal.list []) "/data/customer_data/acct-1/tmpw8x" "20250101-120000" true 2
    (by decide) (by decide) (Or.inr (by decide))

/-- C2: writing to an existing target with createBackup=true produces
exactly one new backup file: its path is the original filename followed
by `.<YYYYMMDD-HHMMSS>.bak` in the same directory, it holds the
pre-write content of the target, and the copy creating it is issued
strictly before the replace of the target (the script below performs the
copy as its second operation and the replace last); no path other than
the target and the backup changes.  With createBackup=false no path but
the target changes, so no backup file is produced. -/
theorem c2_backup_creation (fs : FS) (target : PyPath) (payload : PyVal)
    (indent : Nat) (tmp ts : String) (c : PyVal)
    (hc : fs.lookupFile target.str = Option.some c)
    (hser : hasUnserializable payload = false)
    (hsuf : pySuffix target.name ≠ "")
    (hbt : target.backupPath ts ≠ tmp)
    (hbak : target.backupPath ts ≠ target.str)
    (htmpfresh : fs.lookupFile tmp = Option.none) :
    target.backupPath ts
      = target.parent ++ "/" ++ (target.name ++ "." ++ ts ++ ".bak")
    ∧ atomicWriteScript fs target payload tmp ts true
        = [FsOp.mkdirP target.parent,
           FsOp.copy target.str (target.backupPath ts),
           FsOp.createTemp tmp,
           FsOp.writeTemp tmp payload,
           FsOp.replace tmp target.str]
    ∧ (_atomic_write_json fs target payload indent true tmp ts).1.lookupFile
        (target.backupPath ts) = Option.some c
    ∧ (∀ p, p ≠ target.str → p ≠ target.backupPath ts →
        (_atomic_write_json fs target payload indent true tmp ts).1.lookupFile p
          = fs.lookupFile p)
    ∧ (∀ p, p ≠ target.str →
        (_atomic_write_json fs target payload indent false tmp ts).1.lookupFile p
          = fs.lookupFile p) := by
  refine ⟨?_, ?_, ?_, ?_, ?_⟩
  · unfold PyPath.backupPath
    rw [backupFileName_eq target.name ts hsuf]
  · exact script_of_backup fs target payload tmp ts hser (by simp [FS.fileExists, hc])
  · exact write_ok_lookup_backup fs target payload indent tmp ts c hser hc hbak hbt
  · intro p hpt hpb
    exact write_ok_lookup_other_backup fs target payload indent tmp ts c p hser hc
      htmpfresh hpt hpb
  · intro p hpt
    exact write_ok_lookup_other_no_backup fs target payload indent false tmp ts p hser
      (by simp) htmpfresh hpt

/-- Witness for C2: after a concrete overwrite of an existing
transactions file, the timestamped backup holds the pre-write content. -/
theorem c2_backup_creation_witness :
    (_atomic_write_json
        ⟨["/data/customer_data/acct-1"],
          [("/data/customer_data/acct-1/transactions.json", PyVal.int 1)]⟩
        ⟨"/data/customer_data/acct-1", "transactions.json"⟩
        (PyVal.list []) 2 true "/data/customer_data/acct-1/tmpw8x"
        "20250101-120000").1.lookupFile
      (PyPath.backupPath ⟨"/data/customer_data/acct-1", "transactions.json"⟩
        "20250101-120000")
      = Option.some (PyVal.int 1) :=
  (c2_backup_creation
    ⟨["/data/customer_data/acct-1"],
      [("/data/customer_data/acct-1/transactions.json", PyVal.int 1)]⟩
    ⟨"/data/customer_data/acct-1", "transactions.json"⟩
    (PyVal.list []) 2 "/data/customer_data/acct-1/tmpw8x" "20250101-120000"
    (PyVal.int 1) rfl rfl (by decide) (by decide) (by decide) rfl).2.2.1

/-- C3 (code bug): the source computes the returned status from
`target.exists()` only after `os.replace` has installed the new file, so
even the very first write to a fresh target — here an empty filesystem,
where the target provably does not exist before the write — returns
"updated"; the "created" arm of the source is unreachable and the
claimed "created"-then-"updated" sequence never happens. -/
theorem c3_fresh_write_reports_updated :
    FS.lookupFile ⟨[], []⟩ "/data/customer_data/acct-1/transactions.json"
      = Option.none
    ∧ (_atomic_write_json ⟨[], []⟩
        ⟨"/data/customer_data/acct-1", "transactions.json"⟩
        (PyVal.list []) 2 true "/data/customer_data/acct-1/tmpw8x"
        "20250101-120000").2
      = Except.ok ("updated", 2) :=
  ⟨rfl, rfl⟩

/-- C4: round-trip — writing any JSON-serializable payload to a target
and reading that file back with `_load_json` yields a value deeply equal
to the payload. -/
theorem c4_round_trip (fs : FS) (target : PyPath) (payload : PyVal)
    (indent : Nat) (be : Bool) (tmp ts : String)
    (hser : jsonSerializable payload = true) :
    _load_json (_atomic_write_json fs target payload indent be tmp ts).1 target.str
      = Except.ok payload := by
  have h1 : hasUnserializable payload = false := by
    unfold jsonSerializable at hser
    rw [Bool.and_eq_true] at hser
    simpa using hser.1
  unfold _load_json
  rw [write_ok_lookup_target fs target payload indent be tmp ts h1]

/-- Witness for C4: a nested Unicode payload written to a fresh
account_summary target reads back deeply equal. -/
theorem c4_round_trip_witness :
    _load_json
      (_atomic_write_json ⟨[], []⟩
        ⟨"/data/customer_data/acct-1", "account_summary.json"⟩
        (PyVal.dict [("café", PyVal.list [PyVal.str "naïve", PyVal.dict []])])
        2 true "/data/customer_data/acct-1/tmpw8x" "20250101-120000").1
      (PyPath.str ⟨"/data/customer_data/acct-1", "account_summary.json"⟩)
      = Except.ok
          (PyVal.dict [("café", PyVal.list [PyVal.str "naïve", PyVal.dict []])]) :=
  c4_round_trip ⟨[], []⟩ ⟨"/data/customer_data/acct-1", "account_summary.json"⟩
    (PyVal.dict [("café", PyVal.list [PyVal.str "naïve", PyVal.dict []])])
    2 true "/data/customer_data/acct-1/tmpw8x" "20250101-120000" rfl

/-- C5 counterexample: the account id "acct-1 " (trailing space) contains
a character outside `[A-Za-z0-9_-]`, yet path resolution succeeds — the
code strips whitespace before matching the pattern, so the id resolves
to the acct-1 directory instead of failing with InvalidIdentifier. -/
theorem c5_whitespace_id_resolves :
    (∃ ch ∈ "acct-1 ".toList, isIdChar ch = false)
    ∧ _sanitize_account_id "acct-1 " = Except.ok "acct-1"
    ∧ account_dir "acct-1 " = Except.ok "/data/customer_data/acct-1" :=
  ⟨⟨' ', by decide, by decide⟩, rfl, rfl⟩

/-- C5 (amended): path resolution fails with ValueError
(InvalidIdentifier) for every accountId that, after Python's
`str.strip()` of leading/trailing whitespace, is empty or still contains
a character outside `[A-Za-z0-9_-]`; such an id never resolves to a
filesystem path.  (The claim as stated — quantifying over the raw id —
fails only for ids whose offending characters are all leading/trailing
whitespace, which the code strips before validating.) -/
theorem c5_invalid_id_rejected (s : String)
    (h : pyStrip s = "" ∨ ∃ ch ∈ (pyStrip s).toList, isIdChar ch = false) :
    _sanitize_account_id s
      = Except.error (PyErr.valueError ("Invalid account_id: " ++ pyStrip s))
    ∧ account_dir s
      = Except.error (PyErr.valueError ("Invalid account_id: " ++ pyStrip s)) := by
  have hm : matchesIdPattern (pyStrip s) = false := by
    rcases h with h | ⟨ch, hmem, hch⟩
    · simp only [matchesIdPattern, h]
      decide
    · have hall : (pyStrip s).toList.all isIdChar = false :=
        List.all_eq_false.mpr ⟨ch, hmem, by simp [hch]⟩
      simp only [matchesIdPattern, hall, Bool.and_false]
  have hs : _sanitize_account_id s
      = Except.error (PyErr.valueError ("Invalid account_id: " ++ pyStrip s)) := by
    simp [_sanitize_account_id, hm]
  refine ⟨hs, ?_⟩
  unfold account_dir
  rw [hs]
  rfl

/-- Witness for C5 (amended): "a/b" contains a slash that survives
stripping, and resolution fails with the ValueError. -/
theorem c5_invalid_id_rejected_witness :
    _sanitize_account_id "a/b"
      = Except.error (PyErr.valueError ("Invalid account_id: " ++ pyStrip "a/b"))
    ∧ account_dir "a/b"
      = Except.error (PyErr.valueError ("Invalid account_id: " ++ pyStrip "a/b")) :=
  c5_invalid_id_rejected "a/b" (Or.inr ⟨'/', by decide, by decide⟩)

/-- C6 counterexample: a payload that is the non-finite float NaN is
written without any SerializationError — `json.dump` is called with its
default `allow_nan=True` — and the atomic replace completes, installing
the NaN document at the target. -/
theorem c6_nan_write_succeeds :
    hasNonFinite PyVal.nan = true
    ∧ (_atomic_write_json ⟨[], []⟩
        ⟨"/data/customer_data/acct-1", "account_summary.json"⟩
        PyVal.nan 2 true "/data/customer_data/acct-1/tmpw8x" "20250101-120000").2
        = Except.ok ("updated", 3)
    ∧ (_atomic_write_json ⟨[], []⟩
        ⟨"/data/customer_data/acct-1", "account_summary.json"⟩
        PyVal.nan 2 true "/data/customer_data/acct-1/tmpw8x" "20250101-120000").1.lookupFile
        "/data/customer_data/acct-1/account_summary.json"
        = Option.some PyVal.nan :=
  ⟨rfl, rfl, rfl⟩

/-- C6 (amended): for every payload containing an object `json.dump`
cannot serialize, the write fails with the TypeError surfaced as
SerializationError and the atomic replace does not complete — the target
keeps its pre-write content or absence.  Payloads whose only oddity is a
non-finite number do not fail, because the code never passes
`allow_nan=False` (see the counterexample). -/
theorem c6_unserializable_write_fails (fs : FS) (target : PyPath) (payload : PyVal)
    (indent : Nat) (be : Bool) (tmp ts : String)
    (hser : hasUnserializable payload = true)
    (htmp : tmp ≠ target.str)
    (hbak : target.backupPath ts ≠ target.str) :
    (_atomic_write_json fs target payload indent be tmp ts).2
      = Except.error (PyErr.typeError "Object is not JSON serializable")
    ∧ (_atomic_write_json fs target payload indent be tmp ts).1.lookupFile target.str
      = fs.lookupFile target.str := by
  refine ⟨atomic_write_snd_of_error fs target payload indent be tmp ts hser, ?_⟩
  by_cases hb : (be && fs.fileExists target.str) = true
  · have hb' := hb
    rw [Bool.and_eq_true] at hb'
    have hex : (fs.lookupFile target.str).isSome = true := hb'.2
    obtain ⟨c, hc⟩ := Option.isSome_iff_exists.mp hex
    have hbe : be = true := hb'.1
    subst hbe
    rw [write_err_lookup_target_backup fs target payload indent tmp ts c hser hc htmp
      hbak, hc]
  · exact write_err_lookup_target_no_backup fs target payload indent be tmp ts hser
      (by simpa using hb) htmp

/-- Witness for C6 (amended): writing a Python set-like unserializable
object to an existing target fails and leaves the target as it was. -/
theorem c6_unserializable_write_fails_witness :
    (_atomic_write_json
        ⟨["/data/customer_data/acct-1"],
          [("/data/customer_data/acct-1/payments.json", PyVal.int 7)]⟩
        ⟨"/data/customer_data/acct-1", "payments.json"⟩
        (PyVal.other "set") 2 true "/data/customer_data/acct-1/tmpw8x"
        "20250101-120000").2
      = Except.error (PyErr.typeError "Object is not JSON serializable")
    ∧ (_atomic_write_json
        ⟨["/data/customer_data/acct-1"],
          [("/data/customer_data/acct-1/payments.json", PyVal.int 7)]⟩
        ⟨"/data/customer_data/acct-1", "payments.json"⟩
        (PyVal.other "set") 2 true "/data/customer_data/acct-1/tmpw8x"
        "20250101-120000").1.lookupFile
        (PyPath.str ⟨"/data/customer_data/acct-1", "payments.json"⟩)
      = FS.lookupFile
          ⟨["/data/customer_data/acct-1"],
            [("/data/customer_data/acct-1/payments.json", PyVal.int 7)]⟩
          (PyPath.str ⟨"/data/customer_data/acct-1", "payments.json"⟩) :=
  c6_unserializable_write_fails
    ⟨["/data/customer_data/acct-1"],
      [("/data/customer_data/acct-1/payments.json", PyVal.int 7)]⟩
    ⟨"/data/customer_data/acct-1", "payments.json"⟩
    (PyVal.other "set") 2 true "/data/customer_data/acct-1/tmpw8x"
    "20250101-120000" rfl (by decide) (by decide)

/-- C10: the backup copy precedes serialization in the source, so a
write with backup_existing=true to an existing target that then fails in
`json.dump` (TypeError) still leaves behind the newly written timestamped
backup file holding the pre-write content, while the target itself is
unchanged — a failed write is not free of side effects on the backup
trail. -/
theorem c10_failed_write_leaves_backup (fs : FS) (target : PyPath) (payload : PyVal)
    (indent : Nat) (tmp ts : String) (c : PyVal)
    (hc : fs.lookupFile target.str = Option.some c)
    (hser : hasUnserializable payload = true)
    (htmp : tmp ≠ target.str)
    (hbt : target.backupPath ts ≠ tmp)
    (hbak : target.backupPath ts ≠ target.str) :
    (_atomic_write_json fs target payload indent true tmp ts).2
      = Except.error (PyErr.typeError "Object is not JSON serializable")
    ∧ (_atomic_write_json fs target payload indent true tmp ts).1.lookupFile
        (target.backupPath ts) = Option.some c
    ∧ (_atomic_write_json fs target payload indent true tmp ts).1.lookupFile
        target.str = Option.some c :=
  ⟨atomic_write_snd_of_error fs target payload indent true tmp ts hser,
   write_err_lookup_backup fs target payload indent tmp ts c hser hc hbt,
   write_err_lookup_target_backup fs target payload indent tmp ts c hser hc htmp hbak⟩

/-- Witness for C10: a concrete failed write that still created the
backup. -/
theorem c10_failed_write_leaves_backup_witness :
    (_atomic_write_json
        ⟨["/data/customer_data/acct-1"],
          [("/data/customer_data/acct-1/statements.json", PyVal.str "old")]⟩
        ⟨"/data/customer_data/acct-1", "statements.json"⟩
        (PyVal.other "datetime") 2 true "/data/customer_data/acct-1/tmpw8x"
        "20250101-120000").2
      = Except.error (PyErr.typeError "Object is not JSON serializable")
    ∧ (_atomic_write_json
        ⟨["/data/customer_data/acct-1"],
          [("/data/customer_data/acct-1/statements.json", PyVal.str "old")]⟩
        ⟨"/data/customer_data/acct-1", "statements.json"⟩
        (PyVal.other "datetime") 2 true "/data/customer_data/acct-1/tmpw8x"
        "20250101-120000").1.lookupFile
        (PyPath.backupPath ⟨"/data/customer_data/acct-1", "statements.json"⟩
          "20250101-120000")
      = Option.some (PyVal.str "old")
    ∧ (_atomic_write_json
        ⟨["/data/customer_data/acct-1"],
          [("/data/customer_data/acct-1/statements.json", PyVal.str "old")]⟩
        ⟨"/data/customer_data/acct-1", "statements.json"⟩
        (PyVal.other "datetime") 2 true "/data/customer_data/acct-1/tmpw8x"
        "20250101-120000").1.lookupFile
        (PyPath.str ⟨"/data/customer_data/acct-1", "statements.json"⟩)
      = Option.some (PyVal.str "old") :=
  c10_failed_write_leaves_backup
    ⟨["/data/customer_data/acct-1"],
      [("/data/customer_data/acct-1/statements.json", PyVal.str "old")]⟩
    ⟨"/data/customer_data/acct-1", "statements.json"⟩
    (PyVal.other "datetime") 2 "/data/customer_data/acct-1/tmpw8x"
    "20250101-120000" (PyVal.str "old") rfl rfl (by decide) (by decide) (by decide)

/-- Content of the file at `p` when present, else the given default —
the per-domain shape `try_load_account_bundle` produces. -/
def domainOrDefault (fs : FS) (p : String) (dflt : PyVal) : PyVal :=
  match fs.lookupFile p with
  | Option.some v => v
  | Option.none => dflt

/-- The four (domain, path) pairs `get_account_paths` returns for a
sanitized account id `t`. -/
def accountPaths (t : String) : List (String × String) :=
  ACCOUNT_FILENAMES.map
    (fun kf => (kf.1, ACCOUNT_DATA_DIR ++ "/" ++ t ++ "/" ++ kf.2))

theorem account_dir_ok (aid t : String)
    (hid : _sanitize_account_id aid = Except.ok t) :
    account_dir aid = Except.ok (ACCOUNT_DATA_DIR ++ "/" ++ t) := by
  unfold account_dir
  rw [hid]
  rfl

theorem get_account_paths_absent (fs : FS) (aid t : String)
    (hid : _sanitize_account_id aid = Except.ok t)
    (hd : fs.dirExists (ACCOUNT_DATA_DIR ++ "/" ++ t) = false) :
    get_account_paths fs aid
      = Except.error (PyErr.fileNotFoundError
          ("Account folder not found: " ++ (ACCOUNT_DATA_DIR ++ "/" ++ t))) := by
  unfold get_account_paths
  rw [account_dir_ok aid t hid]
  simp [hd]

theorem get_account_paths_present (fs : FS) (aid t : String)
    (hid : _sanitize_account_id aid = Except.ok t)
    (hd : fs.dirExists (ACCOUNT_DATA_DIR ++ "/" ++ t) = true) :
    get_account_paths fs aid = Except.ok (accountPaths t) := by
  unfold get_account_paths
  rw [account_dir_ok aid t hid]
  simp [hd, accountPaths]

/-- C7: the non-raising bundle read returns the default bundle
`{transactions: [], payments: [], statements: [], account_summary: {}}`
whenever the account directory does not exist, and when the directory
exists each domain independently defaults — missing files become `[]`
for the three list domains and `{}` for account_summary, while present
files are returned as stored. -/
theorem c7_try_load_defaults (fs : FS) (aid t : String)
    (hid : _sanitize_account_id aid = Except.ok t) :
    (fs.dirExists (ACCOUNT_DATA_DIR ++ "/" ++ t) = false →
      try_load_account_bundle fs aid = Except.ok (defaultBundle, []))
    ∧ (fs.dirExists (ACCOUNT_DATA_DIR ++ "/" ++ t) = true →
      try_load_account_bundle fs aid
        = Except.ok
            ([("transactions",
                domainOrDefault fs
                  (ACCOUNT_DATA_DIR ++ "/" ++ t ++ "/" ++ "transactions.json")
                  (PyVal.list [])),
              ("payments",
                domainOrDefault fs
                  (ACCOUNT_DATA_DIR ++ "/" ++ t ++ "/" ++ "payments.json")
                  (PyVal.list [])),
              ("statements",
                domainOrDefault fs
                  (ACCOUNT_DATA_DIR ++ "/" ++ t ++ "/" ++ "statements.json")
                  (PyVal.list [])),
              ("account_summary",
                domainOrDefault fs
                  (ACCOUNT_DATA_DIR ++ "/" ++ t ++ "/" ++ "account_summary.json")
                  (PyVal.dict []))],
             accountPaths t)) := by
  constructor
  · intro hd
    unfold try_load_account_bundle
    rw [get_account_paths_absent fs aid t hid hd]
  · intro hd
    unfold try_load_account_bundle
    rw [get_account_paths_present fs aid t hid hd]
    rfl

/-- Witness for C7: the nonexistent account "acct-missing" on an empty
filesystem yields exactly the default bundle without raising. -/
theorem c7_try_load_defaults_witness :
    try_load_account_bundle ⟨[], []⟩ "acct-missing"
      = Except.ok (defaultBundle, []) :=
  (c7_try_load_defaults ⟨[], []⟩ "acct-missing" "acct-missing" rfl).1 rfl

/-- Message `load_account_bundle` builds when files are missing. -/
def missingMsg (aid : String) (missing : List (String × String)) : String :=
  "Missing required file(s) for " ++ aid ++ ": "
    ++ String.intercalate ", " (missing.map (fun kp => kp.1 ++ "→" ++ kp.2))

theorem mapM_loadJson_of_all_present (fs : FS) :
    ∀ (paths : List (String × String)),
    (∀ kp ∈ paths, fs.fileExists kp.2 = true) →
    paths.mapM (fun kp => (_load_json fs kp.2).map (fun v => (kp.1, v)))
      = Except.ok (paths.map (fun kp => (kp.1, domainOrDefault fs kp.2 PyVal.none)))
  | [], _ => rfl
  | kp :: tl, h => by
    obtain ⟨v, hv⟩ := Option.isSome_iff_exists.mp (h kp (List.mem_cons_self kp tl))
    have hload : (_load_json fs kp.2).map (fun v => (kp.1, v))
        = Except.ok (kp.1, v) := by
      unfold _load_json
      rw [hv]
      rfl
    have ih := mapM_loadJson_of_all_present fs tl
      (fun q hq => h q (List.mem_cons_of_mem kp hq))
    rw [List.mapM_cons, hload, ih]
    have hdod : domainOrDefault fs kp.2 PyVal.none = v := by
      unfold domainOrDefault
      rw [hv]
    simp only [List.map_cons, hdod]
    rfl

theorem load_account_bundle_eq_of_paths (fs : FS) (aid : String)
    (paths : List (String × String))
    (hp : get_account_paths fs aid = Except.ok paths) :
    load_account_bundle fs aid
      = (if (paths.filter (fun kp => !fs.fileExists kp.2)).isEmpty then
           paths.mapM (fun kp => (_load_json fs kp.2).map (fun v => (kp.1, v)))
         else
           Except.error (PyErr.fileNotFoundError
             ("Missing required file(s) for " ++ aid ++ ": "
               ++ String.intercalate ", "
                 ((paths.filter (fun kp => !fs.fileExists kp.2)).map
                   (fun kp => kp.1 ++ "→" ++ kp.2))))) := by
  unfold load_account_bundle
  rw [hp]

/-- C8: the strict bundle read fails with NotFound (FileNotFoundError)
whenever the account directory does not exist, and whenever any of the
four domain files is missing — in the latter case the error message
lists every missing file as `domain→path`; it succeeds exactly when all
four files are present, returning the stored documents. -/
theorem c8_strict_bundle (fs : FS) (aid t : String)
    (hid : _sanitize_account_id aid = Except.ok t) :
    (fs.dirExists (ACCOUNT_DATA_DIR ++ "/" ++ t) = false →
      load_account_bundle fs aid
        = Except.error (PyErr.fileNotFoundError
            ("Account folder not found: " ++ (ACCOUNT_DATA_DIR ++ "/" ++ t))))
    ∧ (fs.dirExists (ACCOUNT_DATA_DIR ++ "/" ++ t) = true →
        (accountPaths t).filter (fun kp => !fs.fileExists kp.2) ≠ [] →
        load_account_bundle fs aid
          = Except.error (PyErr.fileNotFoundError
              (missingMsg aid
                ((accountPaths t).filter (fun kp => !fs.fileExists kp.2)))))
    ∧ (fs.dirExists (ACCOUNT_DATA_DIR ++ "/" ++ t) = true →
        (accountPaths t).filter (fun kp => !fs.fileExists kp.2) = [] →
        load_account_bundle fs aid
          = Except.ok ((accountPaths t).map
              (fun kp => (kp.1, domainOrDefault fs kp.2 PyVal.none)))) := by
  refine ⟨?_, ?_, ?_⟩
  · intro hd
    unfold load_account_bundle
    rw [get_account_paths_absent fs aid t hid hd]
  · intro hd hmiss
    rw [load_account_bundle_eq_of_paths fs aid (accountPaths t)
      (get_account_paths_present fs aid t hid hd)]
    have hne : ((accountPaths t).filter (fun kp => !fs.fileExists kp.2)).isEmpty
        = false := by
      cases hx : (accountPaths t).filter (fun kp => !fs.fileExists kp.2) with
      | nil => exact absurd hx hmiss
      | cons a l => rfl
    rw [hne]
    rfl
  · intro hd hall
    rw [load_account_bundle_eq_of_paths fs aid (accountPaths t)
      (get_account_paths_present fs aid t hid hd)]
    have hpres : ∀ kp ∈ accountPaths t, fs.fileExists kp.2 = true := by
      intro kp hkp
      have := List.filter_eq_nil_iff.mp hall kp hkp
      simpa using this
    have hmapM := mapM_loadJson_of_all_present fs (accountPaths t) hpres
    rw [hall]
    exact hmapM

/-- Witness for C8: an account whose directory exists but which is
missing all four files fails with the FileNotFoundError naming them. -/
theorem c8_strict_bundle_witness :
    load_account_bundle ⟨["/data/customer_data/acct-1"], []⟩ "acct-1"
      = Except.error (PyErr.fileNotFoundError
          (missingMsg "acct-1"
            ((accountPaths "acct-1").filter
              (fun kp => !FS.fileExists ⟨["/data/customer_data/acct-1"], []⟩ kp.2)))) :=
  (c8_strict_bundle ⟨["/data/customer_data/acct-1"], []⟩ "acct-1" "acct-1" rfl).2.1
    rfl (by decide)

theorem find?_updateFirst (p : TagDoc → Bool) (f : TagDoc → TagDoc)
    (coll : List TagDoc) (d : TagDoc)
    (hfind : coll.find? p = Option.some d)
    (hpf : p (f d) = true) :
    (updateFirst p f coll).find? p = Option.some (f d) := by
  induction coll with
  | nil => exact absurd hfind (by simp)
  | cons a tl ih =>
    by_cases hpa : p a = true
    · rw [List.find?_cons_of_pos _ hpa] at hfind
      have had : a = d := by injection hfind
      subst had
      simp only [updateFirst, if_pos hpa]
      rw [List.find?_cons_of_pos _ hpf]
    · rw [List.find?_cons_of_neg _ hpa] at hfind
      simp only [updateFirst, if_neg hpa]
      rw [List.find?_cons_of_neg _ hpa]
      exact ih hfind

theorem mem_truthy_list (x : String) (l : List String) :
    x ∈ (if l.isEmpty then ([] : List String) else l) ↔ x ∈ l := by
  by_cases h : l.isEmpty
  · rw [if_pos h, List.isEmpty_iff.mp h]
  · rw [if_neg h]

/-- C9: a release-tag update that supplies a Jira issue list stores, on
the document under that projectId key, a jira_issue_list whose elements
are exactly the union of the incoming references and those already
stored there — so no previously stored issue reference is lost by the
update.  (`update_one` is issued without upsert, so a document under the
key must exist for anything to be stored.) -/
theorem c9_jira_union (coll : List TagDoc) (projectId latest_tag status
    new_tag_pipeline patuat_deploy_status diff_url : String)
    (jira : List String) (now : Nat) (d : TagDoc)
    (hfind : coll.find? (fun d => d.projectId = projectId) = Option.some d) :
    ∃ d', (update_release_tags coll projectId latest_tag status new_tag_pipeline
            patuat_deploy_status diff_url (Option.some jira) now).find?
            (fun d => d.projectId = projectId) = Option.some d'
      ∧ (∀ x, x ∈ d'.jira_issue_list ↔ x ∈ jira ∨ x ∈ d.jira_issue_list)
      ∧ (∀ x ∈ d.jira_issue_list, x ∈ d'.jira_issue_list) := by
  unfold update_release_tags
  rw [hfind]
  refine ⟨_, find?_updateFirst _ _ coll d hfind ?_, ?_, ?_⟩
  · exact List.find?_some (p := fun x : TagDoc => decide (x.projectId = projectId))
      (a := d) hfind
  · intro x
    show x ∈ ((if jira.isEmpty then [] else jira)
        ++ (if d.jira_issue_list.isEmpty then [] else d.jira_issue_list)).dedup
      ↔ x ∈ jira ∨ x ∈ d.jira_issue_list
    rw [List.mem_dedup, List.mem_append, mem_truthy_list, mem_truthy_list]
  · intro x hx
    show x ∈ ((if jira.isEmpty then [] else jira)
        ++ (if d.jira_issue_list.isEmpty then [] else d.jira_issue_list)).dedup
    rw [List.mem_dedup, List.mem_append]
    exact Or.inr ((mem_truthy_list x _).mpr hx)

/-- Witness for C9: updating a one-document collection with a new Jira
issue keeps the stored one and adds the incoming one. -/
theorem c9_jira_union_witness :
    ∃ d', (update_release_tags
        [⟨"proj-1", "n", "dn", "ty", "url", "v1.0", "ok", "pipe", "pat",
          "cur", "curp", "diff", ["JIRA-1"], 0, 0⟩]
        "proj-1" "v1.1" "ok" "pipe2" "pat2" "diff2"
        (Option.some ["JIRA-2"]) 5).find?
        (fun d => d.projectId = "proj-1") = Option.some d'
      ∧ (∀ x, x ∈ d'.jira_issue_list ↔ x ∈ ["JIRA-2"] ∨ x ∈ ["JIRA-1"])
      ∧ (∀ x ∈ ["JIRA-1"], x ∈ d'.jira_issue_list) :=
  c9_jira_union
    [⟨"proj-1", "n", "dn", "ty", "url", "v1.0", "ok", "pipe", "pat",
      "cur", "curp", "diff", ["JIRA-1"], 0, 0⟩]
    "proj-1" "v1.1" "ok" "pipe2" "pat2" "diff2" ["JIRA-2"] 5
    ⟨"proj-1", "n", "dn", "ty", "url", "v1.0", "ok", "pipe", "pat",
      "cur", "curp", "diff", ["JIRA-1"], 0, 0⟩ rfl

end NotesStore
